import Mathlib

/-!
Verification of the TruthScope analysis backend
(`extension/backend/check_text.py`).

The Python functions under verification are shallowly embedded below.
Python strings are modelled as Lean `String`s; slicing, lowercasing and
related `str` methods are modelled by the `py*` helpers, which operate on
the underlying code-point list (Python strings are sequences of code
points).  Decoded JSON values (the result of `json.loads` /
`response.json()`) are modelled by the inductive `JVal`.  External HTTP
calls are modelled by oracles describing the outcome of each request, and
the PostgreSQL store by an explicit `DbState` value.
-/

/-- A decoded JSON value, as produced by Python's `json.loads`.
Numbers are modelled as integers; no code path under verification
inspects numeric values.  Object fields model the resulting `dict`
(keys distinct, insertion order). -/
inductive JVal where
  | jnull : JVal
  | jbool : Bool → JVal
  | jnum : Int → JVal
  | jstr : String → JVal
  | jarr : List JVal → JVal
  | jobj : List (String × JVal) → JVal
deriving Repr, Inhabited

/-- Python truthiness (`bool(x)`) of a decoded JSON value: `None`, `False`,
`0`, `""`, `[]` and `{}` are falsy, everything else truthy. -/
def jTruthy : JVal → Bool
  | .jnull => false
  | .jbool b => b
  | .jnum n => !(n == 0)
  | .jstr s => !s.data.isEmpty
  | .jarr xs => !xs.isEmpty
  | .jobj fs => !fs.isEmpty

/-- `isinstance(x, dict)` for a decoded JSON value. -/
def jIsObj : JVal → Bool
  | .jobj _ => true
  | _ => false

/-- `d.get(k)` on a decoded JSON object: the value stored under key `k`,
`none` when the key is absent.  Only ever applied to `jobj` values in the
embedded code paths. -/
def JVal.get? : JVal → String → Option JVal
  | .jobj fs, k => fs.lookup k
  | _, _ => none

/-- The Python type name of a decoded JSON value, as it appears in
`AttributeError` messages such as
`'list' object has no attribute 'get'`. -/
def pyTypeName : JVal → String
  | .jnull => "NoneType"
  | .jbool _ => "bool"
  | .jnum _ => "int"
  | .jstr _ => "str"
  | .jarr _ => "list"
  | .jobj _ => "dict"

/-- The `AttributeError` message raised by CPython when `.get` is called
on a non-dict value, e.g. a decoded JSON array. -/
def attrErrorGet (v : JVal) : String :=
  "'" ++ pyTypeName v ++ "' object has no attribute 'get'"

mutual
/-- Python `str(x)` applied to a decoded JSON value: the identity on
strings, `None`/`True`/`False` on the singletons, decimal rendering of
numbers, and the `repr` rendering of lists and dicts (string escaping
inside `repr` is not modelled; no claim inspects it). -/
def pyStr : JVal → String
  | .jnull => "None"
  | .jbool true => "True"
  | .jbool false => "False"
  | .jnum n => toString n
  | .jstr s => s
  | .jarr xs => "[" ++ pyReprList xs ++ "]"
  | .jobj fs => "\x7b" ++ pyReprFields fs ++ "\x7d"

/-- `repr` of a decoded JSON value (as an element of a list or dict). -/
def pyRepr : JVal → String
  | .jnull => "None"
  | .jbool true => "True"
  | .jbool false => "False"
  | .jnum n => toString n
  | .jstr s => "'" ++ s ++ "'"
  | .jarr xs => "[" ++ pyReprList xs ++ "]"
  | .jobj fs => "\x7b" ++ pyReprFields fs ++ "\x7d"

/-- Comma-separated `repr` of the elements of a list. -/
def pyReprList : List JVal → String
  | [] => ""
  | [x] => pyRepr x
  | x :: xs => pyRepr x ++ ", " ++ pyReprList xs

/-- Comma-separated `repr` of the items of a dict. -/
def pyReprFields : List (String × JVal) → String
  | [] => ""
  | [(k, v)] => "'" ++ k ++ "': " ++ pyRepr v
  | (k, v) :: fs => "'" ++ k ++ "': " ++ pyRepr v ++ ", " ++ pyReprFields fs
end

/-! ### Python string helpers -/

/-- Python slicing `s[:n]`: the first `n` code points. -/
def pyTake (n : Nat) (s : String) : String := String.mk (s.data.take n)

/-- Python slicing `s[n:]`: drop the first `n` code points. -/
def pyDrop (n : Nat) (s : String) : String := String.mk (s.data.drop n)

/-- Python `s.startswith(p)`. -/
def pyStartsWith (p s : String) : Bool := p.data.isPrefixOf s.data

/-- Python `s.endswith(t)`. -/
def pyEndsWith (t s : String) : Bool := t.data.isSuffixOf s.data

/-- Python truthiness of a string: nonempty. -/
def pyTruthy (s : String) : Bool := !s.data.isEmpty

/-- ASCII uppercase letter test (the only case mapping exercised by the
embedded code paths). -/
def isUpperAscii (c : Char) : Bool := 65 ≤ c.toNat && c.toNat ≤ 90

/-- Python `str.lower` on one character, restricted to the ASCII range
(no claim exercises non-ASCII case folding). -/
def pyLowerChar (c : Char) : Char :=
  if 65 ≤ c.toNat ∧ c.toNat ≤ 90 then Char.ofNat (c.toNat + 32) else c

/-- Python `s.lower()` (ASCII case mapping). -/
def pyLower (s : String) : String := String.mk (s.data.map pyLowerChar)

/-- `s` contains no ASCII uppercase letter. -/
def noUpperAscii (s : String) : Bool := s.data.all (fun c => !(isUpperAscii c))

/-- A Python whitespace character (the set removed by `str.strip()`). -/
def pyWs (c : Char) : Bool :=
  c == ' ' || c == '\t' || c == '\n' || c == '\r' || c == '\x0b' || c == '\x0c'

/-- Python `s.strip()`: remove leading and trailing whitespace. -/
def pyStrip (s : String) : String :=
  String.mk (((s.data.dropWhile pyWs).reverse.dropWhile pyWs).reverse)

/-- Python `s.removeprefix(p)`: drop `p` from the front when present,
otherwise return `s` unchanged. -/
def pyRemoveHead (p s : String) : String :=
  if pyStartsWith p s then pyDrop p.data.length s else s

/-- Python `s.removesuffix(t)`: drop `t` from the end when present,
otherwise return `s` unchanged. -/
def pyRemoveTail (t s : String) : String :=
  if pyEndsWith t s then String.mk (s.data.take (s.data.length - t.data.length)) else s

/-! ### `urllib.parse.urlparse` (netloc extraction) -/

/-- A character allowed in a URL scheme (CPython `scheme_chars`). -/
def schemeChar (c : Char) : Bool :=
  c.isAlpha || c.isDigit || c == '+' || c == '-' || c == '.'

/-- The scheme-splitting step of CPython `urlsplit`: when the text before
the first `:` is a nonempty run of scheme characters starting with a
letter, the scheme and the colon are removed; otherwise the input is
returned unchanged. -/
def splitScheme (cs : List Char) : List Char :=
  let pre := cs.takeWhile (fun c => c != ':')
  match cs.dropWhile (fun c => c != ':') with
  | ':' :: after =>
    match pre with
    | [] => cs
    | c0 :: _ => if c0.isAlpha && pre.all schemeChar then after else cs
  | _ => cs

/-- `urlparse(url).netloc`: after removing a scheme, a netloc is present
exactly when the remainder starts with `//`, and extends to the first
`/`, `?` or `#`.  CPython raises `ValueError` on an unbalanced bracket in
the netloc; that exception is modelled as `none` (the caller
`extract_domain_from_url` catches every exception). -/
def pyNetloc (url : String) : Option String :=
  match splitScheme url.data with
  | '/' :: '/' :: tail =>
    let netloc := tail.takeWhile (fun c => c != '/' && c != '?' && c != '#')
    if (netloc.contains '[' && !netloc.contains ']') ||
       (netloc.contains ']' && !netloc.contains '[') then
      none
    else
      some (String.mk netloc)
  | _ => some ""

/-! ### Exceptions and database state -/

/-- The custom exception classes of `check_text.py`, carrying the
message passed to the constructor. -/
inductive PyExn where
  | configurationError : String → PyExn
  | databaseError : String → PyExn
  | apiError : String → PyExn
deriving Repr, DecidableEq

/-- `str(e)` of a raised custom exception: its message. -/
def pyExnStr : PyExn → String
  | .configurationError m => m
  | .databaseError m => m
  | .apiError m => m

/-- The PostgreSQL store as seen by one request: either some
storage-layer fault (pool initialization, connection checkout or query
execution failing — `msg` is the text of the `DatabaseError` /
`psycopg2.Error` raised inside the `try` block), or the contents of the
two tables: `url_verdicts` rows `(domain, verdict)` and
`analysis_results` rows `(url, result_json)`, each keyed by their primary
key. -/
inductive DbState where
  | fault : String → DbState
  | avail : List (String × String) → List (String × JVal) → DbState
deriving Repr

/-! ### `extract_domain_from_url` and `check_database_for_url` -/

/-- `extract_domain_from_url(url)`: take `urlparse(url).netloc`, strip a
leading literal `www.`, lowercase; `None` when the result is empty or
parsing raised. -/
def extract_domain_from_url (url : String) : Option String :=
  match pyNetloc url with
  | none => none
  | some netloc =>
    let domain := if pyTruthy netloc && pyStartsWith "www." netloc
                  then pyDrop 4 netloc else netloc
    if pyTruthy domain then some (pyLower domain) else none

/-- `check_database_for_url(url)`: return `"invalid_url"` when no domain
can be extracted; otherwise query `url_verdicts` by the normalized
domain, returning the stored verdict or `"not_found"`, and rethrow any
storage-layer fault as `DatabaseError`. -/
def check_database_for_url (db : DbState) (url : String) : Except PyExn String :=
  match extract_domain_from_url url with
  | none => .ok "invalid_url"
  | some domain =>
    match db with
    | .fault m => .error (.databaseError ("DB error checking URL: " ++ m))
    | .avail url_verdicts _ =>
      match url_verdicts.lookup domain with
      | some v => .ok v
      | none => .ok "not_found"

/-! ### Constants (`check_text.py` module constants) -/

/-- `API_TIMEOUT_SECONDS = 15`. -/
def API_TIMEOUT_SECONDS : Nat := 15

/-- `FACT_CHECK_CLAIM_LIMIT = 3`: max claims checked per article. -/
def FACT_CHECK_CLAIM_LIMIT : Nat := 3

/-- `FACT_CHECK_QUERY_SIZE_LIMIT = 500`: max characters per claim query. -/
def FACT_CHECK_QUERY_SIZE_LIMIT : Nat := 500

/-- `GOOGLE_SEARCH_RESULT_LIMIT = 5`. -/
def GOOGLE_SEARCH_RESULT_LIMIT : Nat := 5

/-- An API key as loaded from the environment: the empty string models a
missing variable (both are falsy in the `if not KEY` checks). -/
def apiKeyOk (key : String) : Bool :=
  !(!pyTruthy key || pyStartsWith "YOUR_" key)

/-! ### HTTP request outcomes

Each `requests.get` call in the source is wrapped in a `try` block whose
handlers distinguish a timeout, any other `requests` failure (HTTP 4xx or
5xx raised by `raise_for_status`, connection and protocol errors), and a
body that is not parseable JSON.  One HTTP exchange is therefore modelled
by its observable outcome. -/

/-- Outcome of one `requests.get(...)` followed by `response.json()`. -/
inductive HttpOutcome where
  | timeout : HttpOutcome
  | requestError : String → HttpOutcome
  | badJson : String → HttpOutcome
  | ok : JVal → HttpOutcome

/-! ### `search_google_news` -/

/-- One entry of the list returned by `search_google_news`. -/
structure SearchResult where
  title : String
  link : String
  snippet : String
deriving Repr, DecidableEq

/-- The per-item body of the `for item in raw_results[:5]` loop: items
that are falsy or not dicts are skipped, otherwise the three fields are
read with their defaults. -/
def sgItem (item : JVal) : Option SearchResult :=
  if jTruthy item && jIsObj item then
    some { title := pyStr ((item.get? "title").getD (.jstr "N/A"))
           link := pyStr ((item.get? "url").getD (.jstr "#"))
           snippet := pyStr ((item.get? "description").getD (.jstr "N/A")) }
  else none

/-- `search_google_news(query)` given the outcome of the single ZenRows
request.  A decoded body that is not a dict makes `data.get` raise
`AttributeError`, which the final `except Exception` handler converts to
an `ApiError`. -/
def search_google_news (zenrows_key : String) (resp : HttpOutcome)
    (query : String) : Except PyExn (List SearchResult) :=
  if !apiKeyOk zenrows_key then
    .error (.configurationError "ZenRows API Key not configured.")
  else
    match resp with
    | .timeout =>
      .error (.apiError ("ZenRows API request timed out after " ++
        toString API_TIMEOUT_SECONDS ++ "s."))
    | .requestError e => .error (.apiError ("ZenRows API request failed: " ++ e))
    | .badJson _ => .error (.apiError "Invalid JSON response from ZenRows API.")
    | .ok data =>
      if jIsObj data then
        let raw := (data.get? "organic_results").getD (.jarr [])
        let raw_results := match raw with | .jarr xs => xs | _ => []
        .ok ((raw_results.take GOOGLE_SEARCH_RESULT_LIMIT).filterMap sgItem)
      else
        .error (.apiError ("Unexpected error during Google search: " ++
          attrErrorGet data))

/-! ### `fact_check_claims` -/

/-- One fact-check record, as appended to `all_results`. -/
structure FactCheckResult where
  source : String
  title : String
  url : String
  claim : String
  review_rating : String
deriving Repr, DecidableEq

/-- Navigation of a decoded Fact Check Tools response body (a dict):
first `claimReview` of the first claim only, with the source's defaults.
`claim_text` is the original (untruncated) claim, used as the fallback
for the `claim` field. -/
def fc_extract (claim_text : String) (data : JVal) : Option FactCheckResult :=
  match (data.get? "claims").getD (.jarr []) with
  | .jarr (first :: _) =>
    if jTruthy first && jIsObj first then
      match (first.get? "claimReview").getD (.jarr []) with
      | .jarr (review :: _) =>
        if jTruthy review && jIsObj review then
          let publisher := (review.get? "publisher").getD (.jobj [])
          let publisher_name :=
            if jTruthy publisher && jIsObj publisher then
              pyStr ((publisher.get? "name").getD (.jstr "Unknown Source"))
            else "Unknown Source"
          some { source := publisher_name
                 title := pyStr ((review.get? "title").getD
                   ((first.get? "text").getD (.jstr "N/A")))
                 url := pyStr ((review.get? "url").getD (.jstr "#"))
                 claim := pyStr ((first.get? "text").getD (.jstr claim_text))
                 review_rating := pyStr ((review.get? "textualRating").getD (.jstr "N/A")) }
        else none
      | _ => none
    else none
  | _ => none

/-- The body of the `for claim_text in claims_to_check` loop for one
claim: truncate to 500 characters, issue the request (`oracle` maps the
query actually sent to its outcome), and either record an error message
in `tool_errors` (`Except.error`) or optionally append one record to
`all_results` (`Except.ok`). -/
def fc_handle_claim (oracle : String → HttpOutcome) (claim_text : String) :
    Except String (Option FactCheckResult) :=
  let truncated_claim := pyTake FACT_CHECK_QUERY_SIZE_LIMIT claim_text
  match oracle truncated_claim with
  | .timeout =>
    .error ("Timeout calling Fact Check API for claim: " ++ truncated_claim)
  | .requestError e => .error ("Error calling Google Fact Check API: " ++ e)
  | .badJson e => .error ("Error decoding Google Fact Check API response: " ++ e)
  | .ok data =>
    if jIsObj data then .ok (fc_extract claim_text data)
    else
      .error ("Unexpected error during fact check for claim '" ++
        truncated_claim ++ "': " ++ attrErrorGet data)

/-- The queries `fact_check_claims` sends over the network: one per claim
among the first `FACT_CHECK_CLAIM_LIMIT`, each truncated to
`FACT_CHECK_QUERY_SIZE_LIMIT` characters. -/
def fc_queries (claims : List String) : List String :=
  (claims.take FACT_CHECK_CLAIM_LIMIT).map (pyTake FACT_CHECK_QUERY_SIZE_LIMIT)

/-- The outcomes of the `for claim_text in claims_to_check` loop
(`claims_to_check = claims[:FACT_CHECK_CLAIM_LIMIT]`), in loop order. -/
def fc_processed (oracle : String → HttpOutcome) (claims : List String) :
    List (Except String (Option FactCheckResult)) :=
  (claims.take FACT_CHECK_CLAIM_LIMIT).map (fc_handle_claim oracle)

/-- The `tool_errors` list accumulated by the claim loop, in loop order. -/
def fc_tool_errors (oracle : String → HttpOutcome) (claims : List String) :
    List String :=
  (fc_processed oracle claims).filterMap fun r =>
    match r with
    | .error e => some e
    | .ok _ => none

/-- The `all_results` list accumulated by the claim loop, in loop order. -/
def fc_all_results (oracle : String → HttpOutcome) (claims : List String) :
    List FactCheckResult :=
  (fc_processed oracle claims).filterMap fun r =>
    match r with
    | .error _ => none
    | .ok o => o

/-- `fact_check_claims(claims)`: check the key, return `[]` for an empty
input, process the first 3 claims recording per-claim failures, and
afterwards either raise one `ApiError` concatenating every recorded
failure or return the collected records. -/
def fact_check_claims (fact_check_key : String) (oracle : String → HttpOutcome)
    (claims : List String) : Except PyExn (List FactCheckResult) :=
  if !apiKeyOk fact_check_key then
    .error (.configurationError "Google Fact Check API Key not configured.")
  else if claims.isEmpty then .ok []
  else
    let tool_errors := fc_tool_errors oracle claims
    if tool_errors.isEmpty then .ok (fc_all_results oracle claims)
    else
      .error (.apiError ("Fact check tool encountered errors: " ++
        String.intercalate "; " tool_errors))

/-! ### `update_analysis_results` (result cache upsert) -/

/-- The effect of
`INSERT INTO analysis_results (url, result_json, ...) VALUES (...)
ON CONFLICT (url) DO UPDATE SET result_json = EXCLUDED.result_json` on
the table rows: replace the row whose key equals `url` exactly, or
append a new row. -/
def upsertAnalysisRow (rows : List (String × JVal)) (url : String)
    (result_json : JVal) : List (String × JVal) :=
  if rows.any (fun r => r.1 == url) then
    rows.map (fun r => if r.1 == url then (r.1, result_json) else r)
  else rows ++ [(url, result_json)]

/-- `update_analysis_results(url, analysis_result)`: upsert into
`analysis_results` keyed by the exact URL string, rethrowing any
storage-layer fault as `DatabaseError`.  Returns the updated store. -/
def update_analysis_results (db : DbState) (url : String)
    (analysis_result : JVal) : Except PyExn DbState :=
  match db with
  | .fault m => .error (.databaseError ("DB error updating results: " ++ m))
  | .avail url_verdicts analysis_rows =>
    .ok (.avail url_verdicts (upsertAnalysisRow analysis_rows url analysis_result))

/-- Modelled from the spec: the Result Cache reader
`get(url) -> verdict | absent` of section 4.6 (the repository source
contains only the writer `update_analysis_results`; no reader for the
`analysis_results` table appears under the backend sources).  Exact-key
lookup of the stored `result_json`. -/
def get_analysis (db : DbState) (url : String) : Option JVal :=
  match db with
  | .fault _ => none
  | .avail _ analysis_rows => analysis_rows.lookup url

/-- The rows of the `analysis_results` table holding exactly the given
URL as key. -/
def analysis_rows_for (db : DbState) (url : String) : List (String × JVal) :=
  match db with
  | .fault _ => []
  | .avail _ analysis_rows => analysis_rows.filter (fun r => r.1 == url)

/-! ### `analyze_article` -/

/-- The observable outcome of the Gemini chat exchange
(`chat.send_message`, including the tool-calling loop): a final text
response, a response without text, a propagated tool exception
(`ApiError` / `DatabaseError` / `ConfigurationError` from one of the
three tool functions), or any other exception. -/
inductive GeminiOutcome where
  | text : String → GeminiOutcome
  | noText : GeminiOutcome
  | toolError : PyExn → GeminiOutcome
  | unexpectedError : GeminiOutcome

/-- The defensive code-fence stripping `analyze_article` applies to the
final model text before `json.loads`: when the text starts with
` ```json ` (or bare ` ``` `), strip whitespace, remove that fence
marker from the front and a trailing ` ``` `, and strip again. -/
def stripGeminiFences (t : String) : String :=
  if pyStartsWith "```json" t then
    pyStrip (pyRemoveTail "```" (pyRemoveHead "```json" (pyStrip t)))
  else if pyStartsWith "```" t then
    pyStrip (pyRemoveTail "```" (pyRemoveHead "```" (pyStrip t)))
  else t

/-- The `{"error": msg}` dictionaries `analyze_article` returns on its
failure paths. -/
def errObj (msg : String) : JVal := .jobj [("error", .jstr msg)]

/-- `analyze_article(url, article_text)`: validate inputs, run the Gemini
exchange, strip optional code fences from the final text, parse it with
`json.loads` (modelled by `jsonLoads`, `none` = `JSONDecodeError`), on
success upsert the verdict into the result cache — a `DatabaseError`
there is caught and only logged — and return the verdict; on parse
failure return an error dict carrying the text that was parsed.  The
second component is the resulting database state. -/
def analyze_article (db : DbState) (gemini : GeminiOutcome)
    (jsonLoads : String → Option JVal) (url article_text : String) :
    JVal × DbState :=
  if !pyTruthy url || !pyTruthy article_text then
    (errObj "URL and article text must be provided.", db)
  else
    match gemini with
    | .text t =>
      let final_text := stripGeminiFences t
      match jsonLoads final_text with
      | some analysis_result =>
        (analysis_result,
         match update_analysis_results db url analysis_result with
         | .ok db2 => db2
         | .error _ => db)
      | none =>
        (.jobj [("error", .jstr "Model did not return valid JSON in the final response."),
                ("raw_response", .jstr final_text)], db)
    | .noText =>
      (errObj "Model did not provide a final text analysis after function calls.", db)
    | .toolError e =>
      (errObj ("Analysis failed due to tool error: " ++ pyExnStr e), db)
    | .unexpectedError =>
      (errObj "An unexpected server error occurred during analysis interaction.", db)

/-- A fact-check oracle for concrete evaluation: the request for the
query `"bad"` times out, every other request succeeds with an empty
JSON object body. -/
def fcOracleW : String → HttpOutcome :=
  fun q => if q == "bad" then .timeout else .ok (.jobj [])

/-! ## Supporting lemmas -/

theorem isUpperAscii_pyLowerChar (c : Char) :
    isUpperAscii (pyLowerChar c) = false := by
  unfold pyLowerChar
  by_cases h : 65 ≤ c.toNat ∧ c.toNat ≤ 90
  · rw [if_pos h]
    obtain ⟨h1, h2⟩ := h
    generalize c.toNat = n at h1 h2
    interval_cases n <;> decide
  · rw [if_neg h]
    simp only [isUpperAscii, Bool.and_eq_false_imp, decide_eq_true_eq,
      decide_eq_false_iff_not]
    omega

theorem noUpperAscii_pyLower (s : String) : noUpperAscii (pyLower s) = true := by
  show (s.data.map pyLowerChar).all (fun c => !(isUpperAscii c)) = true
  simp only [List.all_eq_true, List.mem_map]
  rintro c ⟨c0, _, rfl⟩
  simp [isUpperAscii_pyLowerChar]

theorem pyTruthy_of_startsWith_www (s : String)
    (h : pyStartsWith "www." s = true) : pyTruthy s = true := by
  unfold pyStartsWith at h
  unfold pyTruthy
  cases hd : s.data with
  | nil => rw [hd] at h; exact absurd h (by decide)
  | cons a l => simp [hd]

theorem pyLower_ne_empty (s : String) (h : pyTruthy s = true) :
    pyLower s ≠ "" := by
  intro h0
  have h2 : s.data.map pyLowerChar = ([] : List Char) := congrArg String.data h0
  rw [List.map_eq_nil_iff] at h2
  rw [pyTruthy, h2] at h
  exact absurd h (by decide)

/-! ## Claims C2, C7, C8: domain extraction and reputation lookup -/

/-- C2: a URL from which no domain can be extracted makes
`check_database_for_url` return `"invalid_url"` whatever the state of the
store (in particular no query is issued: the result is the same even when
the store is faulted); a URL whose normalized domain has no row in
`url_verdicts` yields `"not_found"`. -/
theorem check_database_invalid_url_and_not_found
    (db : DbState) (url_verdicts : List (String × String))
    (analysis_rows : List (String × JVal)) (url d : String) :
    (extract_domain_from_url url = none →
      check_database_for_url db url = .ok "invalid_url") ∧
    (extract_domain_from_url url = some d → url_verdicts.lookup d = none →
      check_database_for_url (.avail url_verdicts analysis_rows) url =
        .ok "not_found") := by
  constructor
  · intro h
    simp [check_database_for_url, h]
  · intro h hl
    simp [check_database_for_url, h, hl]

theorem check_database_invalid_url_and_not_found_witness :
    check_database_for_url (.fault "connection refused") "nota url" =
      .ok "invalid_url" ∧
    check_database_for_url (.avail [] []) "http://example.com" =
      .ok "not_found" :=
  ⟨(check_database_invalid_url_and_not_found (.fault "connection refused")
      [] [] "nota url" "x").1 (by decide),
   (check_database_invalid_url_and_not_found (.avail [] [])
      [] [] "http://example.com" "example.com").2 (by decide) (by decide)⟩

/-- C7 counterexample: the `www.` strip is case-sensitive and happens
before lowercasing, so the normalized domain of
`http://WWW.Example.com` is `www.example.com`, which begins with
`www.` — refuting the claim that the lookup key never begins with
`www.`. -/
theorem extract_domain_keeps_uppercase_www :
    extract_domain_from_url "http://WWW.Example.com" = some "www.example.com" ∧
    pyStartsWith "www." "www.example.com" = true := by
  constructor
  · decide
  · decide

/-- C7 (amended): the normalized domain is fully lowercase and the
leading `www.` is stripped only when it appears literally in lowercase
in the URL (the strip is case-sensitive and precedes the lowercasing),
so the key may still begin with `www.`. -/
theorem extract_domain_lowercase_strips_lower_www
    (url d : String) (h : extract_domain_from_url url = some d) :
    noUpperAscii d = true ∧ d ≠ "" ∧
    ∀ n, pyNetloc url = some n → pyStartsWith "www." n = true →
      d = pyLower (pyDrop 4 n) := by
  unfold extract_domain_from_url at h
  cases hn : pyNetloc url with
  | none => rw [hn] at h; exact absurd h (by simp)
  | some netloc =>
    rw [hn] at h
    dsimp only at h
    by_cases ht :
        pyTruthy (if pyTruthy netloc && pyStartsWith "www." netloc
                  then pyDrop 4 netloc else netloc) = true
    · rw [if_pos ht] at h
      have hd := (Option.some.inj h).symm
      refine ⟨?_, ?_, ?_⟩
      · rw [hd]; exact noUpperAscii_pyLower _
      · rw [hd]; exact pyLower_ne_empty _ ht
      · intro n hnn hww
        cases Option.some.inj hnn
        rw [hd, pyTruthy_of_startsWith_www _ hww, hww]
        simp
    · rw [if_neg ht] at h
      exact absurd h (by simp)

theorem extract_domain_lowercase_strips_lower_www_witness :
    noUpperAscii "example.com" = true ∧ "example.com" ≠ "" ∧
    ∀ n, pyNetloc "https://www.Example.com/a" = some n →
      pyStartsWith "www." n = true → "example.com" = pyLower (pyDrop 4 n) :=
  extract_domain_lowercase_strips_lower_www "https://www.Example.com/a"
    "example.com" (by decide)

/-- C8: when the reputation store is unreachable or the query fails while
the domain was successfully extracted, `check_database_for_url` raises
`DatabaseError` and in particular never returns `"not_found"`. -/
theorem check_database_store_fault
    (m url d : String) (h : extract_domain_from_url url = some d) :
    check_database_for_url (.fault m) url =
      .error (.databaseError ("DB error checking URL: " ++ m)) ∧
    ∀ s, check_database_for_url (.fault m) url ≠ .ok s := by
  have h1 : check_database_for_url (.fault m) url =
      .error (.databaseError ("DB error checking URL: " ++ m)) := by
    simp [check_database_for_url, h]
  exact ⟨h1, fun s hc => by rw [h1] at hc; exact Except.noConfusion hc⟩

theorem check_database_store_fault_witness :
    check_database_for_url (.fault "pool down") "http://example.com" =
      .error (.databaseError ("DB error checking URL: " ++ "pool down")) :=
  (check_database_store_fault "pool down" "http://example.com" "example.com"
    (by decide)).1

/-! ## Claim C4: result-cache upsert is last-write-wins on the exact URL -/

theorem map_replace_fst (rows : List (String × JVal)) (u : String) (v : JVal) :
    (rows.map (fun r => if r.1 == u then (r.1, v) else r)).map Prod.fst =
      rows.map Prod.fst := by
  rw [List.map_map]
  apply List.map_congr_left
  intro r _
  by_cases hr : r.1 = u <;> simp [hr]

theorem filter_key_nil (rows : List (String × JVal)) (u : String)
    (h : u ∉ rows.map Prod.fst) :
    rows.filter (fun r => r.1 == u) = [] := by
  rw [List.filter_eq_nil_iff]
  intro r hr
  simp only [beq_iff_eq]
  intro heq
  exact h (List.mem_map.mpr ⟨r, hr, heq⟩)

theorem upsert_keys_nodup (rows : List (String × JVal)) (u : String) (v : JVal)
    (h : (rows.map Prod.fst).Nodup) :
    ((upsertAnalysisRow rows u v).map Prod.fst).Nodup := by
  unfold upsertAnalysisRow
  by_cases ha : rows.any (fun r => r.1 == u) = true
  · rw [if_pos ha, map_replace_fst]
    exact h
  · rw [if_neg ha, List.map_append]
    rw [List.nodup_append]
    refine ⟨h, List.nodup_singleton u, ?_⟩
    intro a haa hab
    rw [List.map_singleton, List.mem_singleton] at hab
    subst hab
    rw [List.any_eq_true] at ha
    obtain ⟨r, hr, hfst⟩ := List.mem_map.mp haa
    exact ha ⟨r, hr, by rw [hfst]; exact beq_self_eq_true a⟩

theorem filter_map_replace (rows : List (String × JVal)) (u : String) (v : JVal)
    (h : (rows.map Prod.fst).Nodup) (ha : rows.any (fun r => r.1 == u) = true) :
    (rows.map (fun r => if r.1 == u then (r.1, v) else r)).filter
      (fun r => r.1 == u) = [(u, v)] := by
  induction rows with
  | nil => simp at ha
  | cons hd tl ih =>
    obtain ⟨k, w⟩ := hd
    rw [List.map_cons, List.nodup_cons] at h
    obtain ⟨hk, htl⟩ := h
    by_cases hku : (k == u) = true
    · have hkeq : k = u := beq_iff_eq.mp hku
      subst hkeq
      rw [List.map_cons, List.filter_cons]
      simp only [beq_self_eq_true, if_true, reduceIte]
      have hnil : (tl.map (fun r => if r.1 == k then (r.1, v) else r)).filter
          (fun r => r.1 == k) = [] := by
        apply filter_key_nil
        rw [map_replace_fst]
        exact hk
      rw [hnil]
    · rw [List.map_cons, List.filter_cons]
      simp only [hku, if_neg, Bool.false_eq_true, not_false_eq_true, reduceIte]
      apply ih htl
      rw [List.any_cons] at ha
      rcases Bool.or_eq_true_iff.mp ha with h1 | h2
      · exact absurd h1 hku
      · exact h2

theorem upsert_filter_self (rows : List (String × JVal)) (u : String) (v : JVal)
    (h : (rows.map Prod.fst).Nodup) :
    (upsertAnalysisRow rows u v).filter (fun r => r.1 == u) = [(u, v)] := by
  unfold upsertAnalysisRow
  by_cases ha : rows.any (fun r => r.1 == u) = true
  · rw [if_pos ha]
    exact filter_map_replace rows u v h ha
  · rw [if_neg ha, List.filter_append]
    have hnil : rows.filter (fun r => r.1 == u) = [] := by
      apply filter_key_nil
      intro hmem
      obtain ⟨r, hr, hfst⟩ := List.mem_map.mp hmem
      exact ha (List.any_eq_true.mpr ⟨r, hr, by rw [hfst]; exact beq_self_eq_true u⟩)
    rw [hnil]
    simp

theorem lookup_of_filter_singleton (rows : List (String × JVal)) (u : String)
    (v : JVal) (h : rows.filter (fun r => r.1 == u) = [(u, v)]) :
    rows.lookup u = some v := by
  induction rows with
  | nil => simp at h
  | cons hd tl ih =>
    obtain ⟨k, w⟩ := hd
    rw [List.filter_cons] at h
    by_cases hku : (k == u) = true
    · simp only [hku, reduceIte] at h
      have hdeq : ((k, w) : String × JVal) = (u, v) := (List.cons_eq_cons.mp h).1
      have hw : w = v := congrArg Prod.snd hdeq
      have huk : (u == k) = true := beq_iff_eq.mpr (beq_iff_eq.mp hku).symm
      simp [List.lookup, huk, hw]
    · simp only [hku, Bool.false_eq_true, reduceIte] at h
      have huk : (u == k) = false := by
        rw [beq_eq_false_iff_ne]
        intro he
        exact hku (beq_iff_eq.mpr he.symm)
      simp [List.lookup, huk]
      exact ih h

/-- C4: upserting an analysis result is last-write-wins keyed by the
exact URL string: starting from any table state satisfying the primary
key invariant, after two `update_analysis_results` calls for the same
URL the table holds exactly one row for that URL, containing only the
second verdict, and the cache reader yields the second verdict only. -/
theorem update_analysis_results_last_write_wins
    (url_verdicts : List (String × String)) (rows : List (String × JVal))
    (url : String) (v1 v2 : JVal) (db1 db2 : DbState)
    (hnodup : (rows.map Prod.fst).Nodup)
    (h1 : update_analysis_results (.avail url_verdicts rows) url v1 = .ok db1)
    (h2 : update_analysis_results db1 url v2 = .ok db2) :
    analysis_rows_for db2 url = [(url, v2)] ∧
    get_analysis db2 url = some v2 := by
  simp only [update_analysis_results, Except.ok.injEq] at h1
  subst h1
  simp only [update_analysis_results, Except.ok.injEq] at h2
  subst h2
  have hfil : (upsertAnalysisRow (upsertAnalysisRow rows url v1) url v2).filter
      (fun r => r.1 == url) = [(url, v2)] :=
    upsert_filter_self _ _ _ (upsert_keys_nodup _ _ _ hnodup)
  exact ⟨hfil, lookup_of_filter_singleton _ _ _ hfil⟩

theorem update_analysis_results_last_write_wins_witness :
    analysis_rows_for (.avail [] [("u", .jstr "b")]) "u" = [("u", .jstr "b")] ∧
    get_analysis (.avail [] [("u", .jstr "b")]) "u" = some (.jstr "b") :=
  update_analysis_results_last_write_wins [] [] "u" (.jstr "a") (.jstr "b")
    (.avail [] [("u", .jstr "a")]) (.avail [] [("u", .jstr "b")])
    (by simp) rfl rfl

/-! ## Claims C6, C10: the web search collaborator -/

/-- C6: whenever `search_google_news` succeeds, it returns at most
`GOOGLE_SEARCH_RESULT_LIMIT` (= 5) entries regardless of the provider
response, and each returned entry originates from one provider item in
which an omitted `title`, `url` or `description` field defaults to
`"N/A"`, `"#"` and `"N/A"` respectively (the fields are always strings
by construction — never null). -/
theorem search_google_news_limit_and_defaults
    (zenrows_key query : String) (resp : HttpOutcome)
    (results : List SearchResult)
    (h : search_google_news zenrows_key resp query = .ok results) :
    results.length ≤ GOOGLE_SEARCH_RESULT_LIMIT ∧
    ∀ r ∈ results, ∃ item : JVal,
      sgItem item = some r ∧
      (item.get? "title" = none → r.title = "N/A") ∧
      (item.get? "url" = none → r.link = "#") ∧
      (item.get? "description" = none → r.snippet = "N/A") := by
  unfold search_google_news at h
  by_cases hkey : apiKeyOk zenrows_key = true
  case neg =>
    rw [if_pos (by simp [hkey])] at h
    exact absurd h (by simp)
  case pos =>
    rw [if_neg (by simp [hkey])] at h
    cases resp with
    | timeout => dsimp only at h; exact absurd h (by simp)
    | requestError e => dsimp only at h; exact absurd h (by simp)
    | badJson e => dsimp only at h; exact absurd h (by simp)
    | ok data =>
      dsimp only at h
      by_cases hobj : jIsObj data = true
      case neg =>
        rw [if_neg hobj] at h
        exact absurd h (by simp)
      case pos =>
        rw [if_pos hobj] at h
        have hres := (Except.ok.inj h).symm
        constructor
        · rw [hres]
          exact le_trans (List.length_filterMap_le _ _) (List.length_take_le _ _)
        · intro r hr
          rw [hres] at hr
          obtain ⟨item, _, hitem⟩ := List.mem_filterMap.mp hr
          refine ⟨item, hitem, ?_, ?_, ?_⟩ <;>
            · intro hnone
              unfold sgItem at hitem
              by_cases hc : (jTruthy item && jIsObj item) = true
              · rw [if_pos hc] at hitem
                have := (Option.some.inj hitem).symm
                rw [this, hnone]
                rfl
              · rw [if_neg hc] at hitem
                exact absurd hitem (by simp)

theorem search_google_news_limit_and_defaults_witness :
    ([{ title := "T", link := "#", snippet := "N/A" }] :
      List SearchResult).length ≤ GOOGLE_SEARCH_RESULT_LIMIT :=
  (search_google_news_limit_and_defaults "k" "q"
    (.ok (.jobj [("organic_results", .jarr [.jobj [("title", .jstr "T")]])]))
    [{ title := "T", link := "#", snippet := "N/A" }] rfl).1

/-- C10 counterexample: the provider body `[]` is syntactically valid
JSON in which the key `organic_results` is absent, yet
`search_google_news` raises `ApiError`: `data.get` on the decoded list
raises `AttributeError`, which the blanket `except Exception` handler
wraps in an `ApiError` — refuting the claim that well-formed JSON
without that key always yields the empty result list. -/
theorem search_google_news_nondict_raises :
    search_google_news "k" (.ok (.jarr [])) "q" =
      .error (.apiError
        "Unexpected error during Google search: 'list' object has no attribute 'get'") :=
  rfl

/-- C10 (amended): if the provider returns a syntactically valid JSON
object (dict) in which `organic_results` is absent or bound to a
non-list value, `search_google_news` does not raise `ApiError`: it
succeeds with the empty list.  (A valid non-dict JSON body instead
raises `ApiError`.) -/
theorem search_google_news_missing_results_empty
    (zenrows_key query : String) (fields : List (String × JVal))
    (hkey : apiKeyOk zenrows_key = true)
    (hshape : ∀ xs, (JVal.jobj fields).get? "organic_results" ≠ some (.jarr xs)) :
    search_google_news zenrows_key (.ok (.jobj fields)) query = .ok [] := by
  unfold search_google_news
  rw [if_neg (by simp [hkey])]
  dsimp only
  rw [if_pos (show jIsObj (JVal.jobj fields) = true from rfl)]
  cases hl : (JVal.jobj fields).get? "organic_results" with
  | none => rfl
  | some v =>
    cases v with
    | jarr xs => exact absurd hl (hshape xs)
    | jnull => rfl
    | jbool b => rfl
    | jnum n => rfl
    | jstr s => rfl
    | jobj fs => rfl

theorem search_google_news_missing_results_empty_witness :
    search_google_news "k" (.ok (.jobj [("status", .jstr "ok")])) "q" =
      .ok [] :=
  search_google_news_missing_results_empty "k" "q" [("status", .jstr "ok")]
    (by decide) (fun xs h => by simp [JVal.get?, List.lookup] at h)

/-! ## Claims C1, C5: the fact-check collaborator -/

/-- C1: when at least one per-claim request among the processed claims
fails, `fact_check_claims` records every failure, keeps processing, and
after the loop raises a single `ApiError` whose message concatenates all
recorded per-claim failure descriptions (separated by `"; "`), in loop
order — and it never returns a result list in that case, even when
other claims succeeded. -/
theorem fact_check_claims_one_failure_fails_batch
    (fact_check_key : String) (oracle : String → HttpOutcome)
    (claims : List String)
    (hkey : apiKeyOk fact_check_key = true)
    (hne : claims ≠ [])
    (hfail : ∃ c ∈ claims.take FACT_CHECK_CLAIM_LIMIT,
      ∃ e, fc_handle_claim oracle c = .error e) :
    fact_check_claims fact_check_key oracle claims =
      .error (.apiError ("Fact check tool encountered errors: " ++
        String.intercalate "; " (fc_tool_errors oracle claims))) ∧
    ∀ results, fact_check_claims fact_check_key oracle claims ≠ .ok results := by
  obtain ⟨c, hc, e, he⟩ := hfail
  have hmem : e ∈ fc_tool_errors oracle claims := by
    unfold fc_tool_errors fc_processed
    rw [List.mem_filterMap]
    exact ⟨.error e, List.mem_map.mpr ⟨c, hc, he⟩, rfl⟩
  have hempty : (fc_tool_errors oracle claims).isEmpty = false := by
    cases hte : fc_tool_errors oracle claims with
    | nil => rw [hte] at hmem; exact absurd hmem (List.not_mem_nil e)
    | cons a l => rfl
  have hcl : claims.isEmpty = false := by
    cases claims with
    | nil => exact absurd rfl hne
    | cons a l => rfl
  have h1 : fact_check_claims fact_check_key oracle claims =
      .error (.apiError ("Fact check tool encountered errors: " ++
        String.intercalate "; " (fc_tool_errors oracle claims))) := by
    simp [fact_check_claims, hkey, hcl, hempty]
  refine ⟨h1, fun results hcontra => ?_⟩
  rw [h1] at hcontra
  exact Except.noConfusion hcontra

theorem fact_check_claims_one_failure_fails_batch_witness :
    fact_check_claims "k" fcOracleW ["claim one", "bad", "claim three"] =
      .error (.apiError ("Fact check tool encountered errors: " ++
        String.intercalate "; "
          (fc_tool_errors fcOracleW ["claim one", "bad", "claim three"]))) :=
  (fact_check_claims_one_failure_fails_batch "k" fcOracleW
    ["claim one", "bad", "claim three"] (by decide) (by decide)
    ⟨"bad", by decide, "Timeout calling Fact Check API for claim: bad", rfl⟩).1

theorem fc_handle_claim_congr (oracle oracle2 : String → HttpOutcome)
    (c : String)
    (h : oracle (pyTake FACT_CHECK_QUERY_SIZE_LIMIT c) =
         oracle2 (pyTake FACT_CHECK_QUERY_SIZE_LIMIT c)) :
    fc_handle_claim oracle c = fc_handle_claim oracle2 c := by
  unfold fc_handle_claim
  dsimp only
  rw [h]

/-- C5: `fact_check_claims` uses only the first `FACT_CHECK_CLAIM_LIMIT`
(= 3) claims — the list of issued queries has length exactly 3 whenever
more claims are supplied, and the whole computation is unchanged when
the remaining claims are dropped — and every query it sends is the claim
text truncated to at most `FACT_CHECK_QUERY_SIZE_LIMIT` (= 500)
characters: the result depends on the network oracle only through its
values on those truncated queries. -/
theorem fact_check_claims_truncation
    (fact_check_key : String) (oracle oracle2 : String → HttpOutcome)
    (claims : List String)
    (hagree : ∀ q ∈ fc_queries claims, oracle q = oracle2 q) :
    (FACT_CHECK_CLAIM_LIMIT < claims.length →
      (fc_queries claims).length = FACT_CHECK_CLAIM_LIMIT) ∧
    (∀ q ∈ fc_queries claims, q.length ≤ FACT_CHECK_QUERY_SIZE_LIMIT) ∧
    fact_check_claims fact_check_key oracle claims =
      fact_check_claims fact_check_key oracle2
        (claims.take FACT_CHECK_CLAIM_LIMIT) := by
  refine ⟨?_, ?_, ?_⟩
  · intro hlen
    unfold fc_queries
    rw [List.length_map, List.length_take]
    unfold FACT_CHECK_CLAIM_LIMIT at hlen ⊢
    omega
  · intro q hq
    unfold fc_queries at hq
    obtain ⟨c, _, rfl⟩ := List.mem_map.mp hq
    show (c.data.take FACT_CHECK_QUERY_SIZE_LIMIT).length ≤
      FACT_CHECK_QUERY_SIZE_LIMIT
    rw [List.length_take]
    unfold FACT_CHECK_QUERY_SIZE_LIMIT
    omega
  · have hproc : fc_processed oracle claims =
        fc_processed oracle2 (claims.take FACT_CHECK_CLAIM_LIMIT) := by
      unfold fc_processed
      rw [List.take_take, min_self]
      apply List.map_congr_left
      intro c hc
      exact fc_handle_claim_congr oracle oracle2 c
        (hagree _ (List.mem_map.mpr ⟨c, hc, rfl⟩))
    have hte : fc_tool_errors oracle claims =
        fc_tool_errors oracle2 (claims.take FACT_CHECK_CLAIM_LIMIT) := by
      unfold fc_tool_errors
      rw [hproc]
    have har : fc_all_results oracle claims =
        fc_all_results oracle2 (claims.take FACT_CHECK_CLAIM_LIMIT) := by
      unfold fc_all_results
      rw [hproc]
    have hemp : claims.isEmpty = (claims.take FACT_CHECK_CLAIM_LIMIT).isEmpty := by
      cases claims <;> rfl
    simp only [fact_check_claims]
    rw [hte, har, hemp]

theorem fact_check_claims_truncation_witness :
    (fc_queries ["a", "b", "c", "d"]).length = FACT_CHECK_CLAIM_LIMIT :=
  (fact_check_claims_truncation "k" fcOracleW fcOracleW ["a", "b", "c", "d"]
    (fun q _ => rfl)).1 (by decide)

/-! ## Claims C3, C9: `analyze_article` -/

/-- C3: `analyze_article` applies `json.loads` to the final model text
only after stripping the optional code-fence markers, and when the
remaining text is not valid JSON it does not crash: it returns a
structured error dict carrying the text it tried to parse in
`raw_response`. -/
theorem analyze_article_parse_failure_reports_raw
    (db : DbState) (jsonLoads : String → Option JVal)
    (url article_text t : String)
    (hu : pyTruthy url = true) (ha : pyTruthy article_text = true)
    (hparse : jsonLoads (stripGeminiFences t) = none) :
    (analyze_article db (.text t) jsonLoads url article_text).1 =
      .jobj [("error",
              .jstr "Model did not return valid JSON in the final response."),
             ("raw_response", .jstr (stripGeminiFences t))] := by
  simp [analyze_article, hu, ha, hparse]

theorem analyze_article_parse_failure_reports_raw_witness :
    (analyze_article (.avail [] []) (.text "```json not json at all```")
      (fun _ => none) "https://example.com/a" "article body").1 =
      .jobj [("error",
              .jstr "Model did not return valid JSON in the final response."),
             ("raw_response", .jstr "not json at all")] :=
  analyze_article_parse_failure_reports_raw (.avail [] []) (fun _ => none)
    "https://example.com/a" "article body" "```json not json at all```"
    (by decide) (by decide) rfl

/-- C9: when the final model text parses as JSON but persisting the
verdict fails with a `DatabaseError` (here: the store is faulted, so
`update_analysis_results` raises), `analyze_article` still returns the
parsed verdict — the cache-write failure is caught and only logged. -/
theorem analyze_article_cache_write_failure_keeps_verdict
    (m : String) (jsonLoads : String → Option JVal)
    (url article_text t : String) (v : JVal)
    (hu : pyTruthy url = true) (ha : pyTruthy article_text = true)
    (hparse : jsonLoads (stripGeminiFences t) = some v) :
    (analyze_article (.fault m) (.text t) jsonLoads url article_text).1 = v ∧
    update_analysis_results (.fault m) url v =
      .error (.databaseError ("DB error updating results: " ++ m)) := by
  constructor
  · simp [analyze_article, hu, ha, hparse, update_analysis_results]
  · rfl

theorem analyze_article_cache_write_failure_keeps_verdict_witness :
    (analyze_article (.fault "store down")
      (.text "```json verdict payload```")
      (fun s => if s == "verdict payload"
                then some (.jobj [("label", .jstr "LABEL_0")]) else none)
      "https://example.com/a" "article body").1 =
      .jobj [("label", .jstr "LABEL_0")] :=
  (analyze_article_cache_write_failure_keeps_verdict "store down"
    (fun s => if s == "verdict payload"
              then some (.jobj [("label", .jstr "LABEL_0")]) else none)
    "https://example.com/a" "article body" "```json verdict payload```"
    (.jobj [("label", .jstr "LABEL_0")])
    (by decide) (by decide) rfl).1
